/-
  Verification development for the FruitSalade Windows Cloud Files API shim
  (src/phase2/windows/cfapi_shim.cpp, interface in
  src/fruitsalade/windows/cfapi_shim.h).

  The shim is embedded shallowly: every record the C++ code builds before
  handing it to the platform (placeholder create info, update metadata,
  transfer-completion operations, sync-root registration) is a Lean
  structure built by a Lean function that mirrors the C++ field
  assignments.  Machine arithmetic is Nat/Int with explicit reduction
  modulo 2^64 where the C++ code computes in unsigned 64-bit.  Platform
  calls (CfRegisterSyncRoot, CfExecute, metadata readback) are modelled
  explicitly where a claim depends on their documented behaviour; each
  such model carries a doc comment saying what it stands for.
-/
import Mathlib

namespace Cfapi

/-- Byte sequences: contents of C `char *` blobs / strings.  A value of
    this type stands for the bytes of the string up to (not including)
    the NUL terminator, so a well-formed C-string argument contains no
    zero byte. -/
abbrev Bytes := List Nat

/-- C `strlen`: length of the initial run of non-zero bytes.  The shim
    applies it to `file_identity` to derive `FileIdentityLength`. -/
def strlen (s : Bytes) : Nat := (s.takeWhile (fun b => b != 0)).length

/-- `static_cast<unsigned long long>(x)` on a signed 64-bit value:
    reduction modulo 2^64 into `[0, 2^64)`. -/
def toULL (x : Int) : Nat := (x % (2 ^ 64 : Int)).toNat

/-- `UnixToFileTime` from cfapi_shim.cpp:
    `(static_cast<unsigned long long>(unixTime) + 11644473600ULL) * 10000000ULL`,
    each unsigned 64-bit operation wrapping modulo 2^64.  The resulting
    64-bit pattern is what the shim stores into every FILETIME /
    LARGE_INTEGER timestamp field. -/
def UnixToFileTime (unixTime : Int) : Nat :=
  (toULL unixTime + 11644473600) % 2 ^ 64 * 10000000 % 2 ^ 64

/-- Reading a FILETIME back as a whole-second Unix timestamp (truncating
    the 100-ns fraction), the inverse direction of `UnixToFileTime`. -/
def fileTimeToUnixSeconds (ft : Nat) : Int :=
  ((ft / 10000000 : Nat) : Int) - 11644473600

/- ---------- Windows constants used by the shim ---------- -/

def FILE_ATTRIBUTE_DIRECTORY : Nat := 16
def FILE_ATTRIBUTE_NORMAL : Nat := 128

/-- CF_PLACEHOLDER_CREATE_FLAG values (numeric values as in cfapi.h; the
    claims only compare against these names). -/
def CF_PLACEHOLDER_CREATE_FLAG_DISABLE_ON_DEMAND_POPULATION : Nat := 1
def CF_PLACEHOLDER_CREATE_FLAG_MARK_IN_SYNC : Nat := 2

/-- RPC_E_CHANGED_MODE = 0x80010106 as a signed 32-bit HRESULT. -/
def RPC_E_CHANGED_MODE : Int := -2147417850

/-- STATUS_SUCCESS, the NTSTATUS the shim stores in a successful
    transfer completion. -/
def STATUS_SUCCESS : Int := 0

/-- HRESULT_FROM_WIN32: non-positive values pass through, positive Win32
    error codes are tagged into FACILITY_WIN32 (0x8007xxxx, negative as
    a signed 32-bit value).  The Win32 code stays recoverable in the low
    16 bits. -/
def HRESULT_FROM_WIN32 (err : Int) : Int :=
  if err ≤ 0 then err else err % 65536 + 0x80070000 - 2 ^ 32

/- ---------- Placeholder records ---------- -/

/-- FILE_BASIC_INFO timestamp/attribute block.  Timestamps are the raw
    64-bit FILETIME bit patterns. -/
structure FILE_BASIC_INFO where
  creationTime : Nat
  lastAccessTime : Nat
  lastWriteTime : Nat
  changeTime : Nat
  fileAttributes : Nat
deriving DecidableEq, Repr

/-- CF_FS_METADATA: basic info plus file size. -/
structure CF_FS_METADATA where
  basicInfo : FILE_BASIC_INFO
  fileSize : Int
deriving DecidableEq, Repr

/-- CF_PLACEHOLDER_CREATE_INFO as filled in by `cfapi_create_placeholder`. -/
structure CF_PLACEHOLDER_CREATE_INFO where
  fileIdentity : Bytes
  fileIdentityLength : Nat
  relativeFileName : Bytes
  fsMetadata : CF_FS_METADATA
  flags : Nat
deriving DecidableEq, Repr

/-- The placeholder record `cfapi_create_placeholder` builds, field by
    field as in the C++ source: identity pointer plus `strlen` length,
    size, the same `UnixToFileTime mtime_unix` in all four timestamp
    fields, and directory/file attributes and creation flags chosen on
    `is_directory` (a C `int`, tested against zero). -/
def createPlaceholderInfo (name file_identity : Bytes) (file_size mtime_unix : Int)
    (is_directory : Int) : CF_PLACEHOLDER_CREATE_INFO :=
  { fileIdentity := file_identity
    fileIdentityLength := strlen file_identity
    relativeFileName := name
    fsMetadata :=
      { fileSize := file_size
        basicInfo :=
          { creationTime := UnixToFileTime mtime_unix
            lastWriteTime := UnixToFileTime mtime_unix
            changeTime := UnixToFileTime mtime_unix
            lastAccessTime := UnixToFileTime mtime_unix
            fileAttributes :=
              if is_directory ≠ 0 then FILE_ATTRIBUTE_DIRECTORY
              else FILE_ATTRIBUTE_NORMAL } }
    flags :=
      if is_directory ≠ 0 then
        Nat.lor CF_PLACEHOLDER_CREATE_FLAG_MARK_IN_SYNC
          CF_PLACEHOLDER_CREATE_FLAG_DISABLE_ON_DEMAND_POPULATION
      else CF_PLACEHOLDER_CREATE_FLAG_MARK_IN_SYNC }

/-- The CF_FS_METADATA record `cfapi_update_placeholder` builds: the
    struct is zero-initialised and only FileSize, LastWriteTime and
    ChangeTime are assigned; CreationTime, LastAccessTime and
    FileAttributes keep their zero initialisation. -/
def updateFsMetadata (file_size mtime_unix : Int) : CF_FS_METADATA :=
  { fileSize := file_size
    basicInfo :=
      { creationTime := 0
        lastAccessTime := 0
        lastWriteTime := UnixToFileTime mtime_unix
        changeTime := UnixToFileTime mtime_unix
        fileAttributes := 0 } }

/- ---------- Status plumbing of the synchronous operations ---------- -/

/-- `cfapi_init`: the CoInitializeEx result is returned verbatim when it
    is a failure other than RPC_E_CHANGED_MODE; otherwise 0.  `FAILED`
    on a signed 32-bit HRESULT is `hr < 0`. -/
def cfapi_init (coInitResult : Int) : Int :=
  if coInitResult < 0 ∧ coInitResult ≠ RPC_E_CHANGED_MODE then coInitResult else 0

/-- Return value of `cfapi_create_placeholder`, given the HRESULT of
    `CfCreatePlaceholders` and the per-placeholder `phInfo.Result` the
    platform wrote back: `if (SUCCEEDED(hr) && FAILED(phInfo.Result))
    hr = phInfo.Result; return hr;`. -/
def cfapi_create_placeholder_status (osHr phResult : Int) : Int :=
  if 0 ≤ osHr ∧ phResult < 0 then phResult else osHr

/-- Return value of `cfapi_update_placeholder`: when CreateFileW fails
    the shim returns `HRESULT_FROM_WIN32(GetLastError())` and submits
    nothing; otherwise it returns the `CfUpdatePlaceholder` HRESULT. -/
def cfapi_update_placeholder_status (openOk : Bool) (lastError osHr : Int) : Int :=
  if openOk then osHr else HRESULT_FROM_WIN32 lastError

/-- The metadata/identity submission of `cfapi_update_placeholder`:
    nothing when the open fails, otherwise the `updateFsMetadata` record
    together with the identity blob and its `strlen` length. -/
def cfapi_update_placeholder_submission (openOk : Bool) (file_identity : Bytes)
    (file_size mtime_unix : Int) : Option (CF_FS_METADATA × Bytes × Nat) :=
  if openOk then some (updateFsMetadata file_size mtime_unix, file_identity, strlen file_identity)
  else none

/-- Return value of `cfapi_dehydrate_placeholder`: same open-failure
    shape as update, otherwise the `CfDehydratePlaceholder` HRESULT. -/
def cfapi_dehydrate_placeholder_status (openOk : Bool) (lastError osHr : Int) : Int :=
  if openOk then osHr else HRESULT_FROM_WIN32 lastError

/-- Return value of `cfapi_unregister_sync_root`: the
    `CfUnregisterSyncRoot` HRESULT verbatim. -/
def cfapi_unregister_sync_root_status (osHr : Int) : Int := osHr

/-- Return value of `cfapi_connect_sync_root`: the `CfConnectSyncRoot`
    HRESULT verbatim. -/
def cfapi_connect_sync_root_status (osHr : Int) : Int := osHr

/- ---------- Sync root registration ---------- -/

/-- A 128-bit identifier (CLSID/GUID) in its four-component layout. -/
structure GUID where
  data1 : Nat
  data2 : Nat
  data3 : Nat
  data4 : List Nat
deriving DecidableEq, Repr

/-- The fixed FruitSalade provider identifier
    {A1B2C3D4-E5F6-7890-ABCD-EF1234567890}, a compile-time constant in
    the shim (`static const CLSID s_providerId`). -/
def s_providerId : GUID :=
  { data1 := 0xa1b2c3d4
    data2 := 0xe5f6
    data3 := 0x7890
    data4 := [0xab, 0xcd, 0xef, 0x12, 0x34, 0x56, 0x78, 0x90] }

/-- CF_SYNC_POLICIES enum values (numeric stand-ins; the claims only
    compare against the names). -/
def CF_HYDRATION_POLICY_FULL : Nat := 2
def CF_POPULATION_POLICY_FULL : Nat := 2
def CF_INSYNC_POLICY_TRACK_ALL : Nat := 0xffffff
def CF_HARDLINK_POLICY_NONE : Nat := 0

/-- CF_SYNC_POLICIES as filled in by `cfapi_register_sync_root`
    (primary hydration/population policies, in-sync policy, hard-link
    policy). -/
structure CF_SYNC_POLICIES where
  hydrationPrimary : Nat
  populationPrimary : Nat
  inSync : Nat
  hardLink : Nat
deriving DecidableEq, Repr

/-- CF_SYNC_REGISTRATION as filled in by `cfapi_register_sync_root`.
    Name and version are kept as the UTF-8 bytes the shim receives; the
    wide conversion it applies is a deterministic function of them and
    plays no role in the claims. -/
structure CF_SYNC_REGISTRATION where
  providerName : Bytes
  providerVersion : Bytes
  providerId : GUID
deriving DecidableEq, Repr

/-- The registration record built by `cfapi_register_sync_root`. -/
def buildSyncRegistration (display_name version : Bytes) : CF_SYNC_REGISTRATION :=
  { providerName := display_name
    providerVersion := version
    providerId := s_providerId }

/-- The policy record built by `cfapi_register_sync_root`. -/
def buildSyncPolicies : CF_SYNC_POLICIES :=
  { hydrationPrimary := CF_HYDRATION_POLICY_FULL
    populationPrimary := CF_POPULATION_POLICY_FULL
    inSync := CF_INSYNC_POLICY_TRACK_ALL
    hardLink := CF_HARDLINK_POLICY_NONE }

/-- CF_REGISTER_FLAG values. -/
def CF_REGISTER_FLAG_NONE : Nat := 0
def CF_REGISTER_FLAG_UPDATE : Nat := 1

/-- One sync-root association persisted by the platform. -/
structure StoredSyncRoot where
  registration : CF_SYNC_REGISTRATION
  policies : CF_SYNC_POLICIES
deriving DecidableEq, Repr

/-- Platform registration store: path-keyed associations. -/
def SyncRootStore := List (Bytes × StoredSyncRoot)

/-- Replace the binding for a path, or append it when absent. -/
def upsertRoot : SyncRootStore → Bytes → StoredSyncRoot → SyncRootStore
  | [], p, e => [(p, e)]
  | (q, d) :: rest, p, e =>
      if q = p then (p, e) :: rest else (q, d) :: upsertRoot rest p e

/-- Look up the association for a path. -/
def lookupRoot : SyncRootStore → Bytes → Option StoredSyncRoot
  | [], _ => none
  | (q, d) :: rest, p => if q = p then some d else lookupRoot rest p

/-- ERROR_ALREADY_EXISTS as an HRESULT, returned by the platform model
    when registering an existing root without CF_REGISTER_FLAG_UPDATE. -/
def E_ALREADY_EXISTS : Int := HRESULT_FROM_WIN32 183

/-- Model of the platform `CfRegisterSyncRoot` (spec Boundary A): with
    CF_REGISTER_FLAG_UPDATE the association is an in-place upsert that
    succeeds whether or not the path is already registered; without it,
    registering an already-registered path fails and leaves the store
    unchanged. -/
def CfRegisterSyncRoot (st : SyncRootStore) (path : Bytes)
    (reg : CF_SYNC_REGISTRATION) (pol : CF_SYNC_POLICIES) (flags : Nat) :
    SyncRootStore × Int :=
  if flags = CF_REGISTER_FLAG_UPDATE then
    (upsertRoot st path ⟨reg, pol⟩, 0)
  else if lookupRoot st path = none then
    ((path, ⟨reg, pol⟩) :: st, 0)
  else (st, E_ALREADY_EXISTS)

/-- `cfapi_register_sync_root`: builds the registration and policy
    records from its arguments and calls the platform with
    CF_REGISTER_FLAG_UPDATE, returning the HRESULT verbatim. -/
def cfapi_register_sync_root (st : SyncRootStore) (sync_root_path display_name version : Bytes) :
    SyncRootStore × Int :=
  CfRegisterSyncRoot st sync_root_path (buildSyncRegistration display_name version)
    buildSyncPolicies CF_REGISTER_FLAG_UPDATE

/- ---------- Transfer operations ---------- -/

/-- CF_OPERATION_TYPE_TRANSFER_DATA (numeric stand-in for the cfapi.h
    enum value). -/
def CF_OPERATION_TYPE_TRANSFER_DATA : Nat := 0

/-- CF_OPERATION_INFO as filled in by both transfer entry points. -/
structure CF_OPERATION_INFO where
  opType : Nat
  connectionKey : Int
  transferKey : Int
deriving DecidableEq, Repr

/-- The TransferData member of CF_OPERATION_PARAMETERS: completion
    status, buffer (`none` models a null pointer), absolute offset and
    length. -/
structure TransferDataParams where
  completionStatus : Int
  buffer : Option Bytes
  offset : Int
  length : Int
deriving DecidableEq, Repr

/-- Platform connection state: the keys of currently connected sync
    roots.  A key outside this list is stale (its connection was
    disconnected or never existed). -/
structure OsConnState where
  liveConnections : List Int
deriving DecidableEq, Repr

/-- Failing status the platform returns from `CfExecute` for an
    operation on a stale key (numeric stand-in; only its nonzeroness
    matters to the claims). -/
def E_STALE_KEY : Int := HRESULT_FROM_WIN32 396

/-- Model of the platform `CfExecute` for TRANSFER_DATA operations
    (spec Boundary A / section 4.5): succeeds on a live connection key,
    fails with a nonzero status on a stale one. -/
def CfExecute (os : OsConnState) (info : CF_OPERATION_INFO)
    (_params : TransferDataParams) : Int :=
  if info.connectionKey ∈ os.liveConnections then 0 else E_STALE_KEY

/-- Everything observable about one `cfapi_transfer_data` call: the
    submitted operation and the `long` returned to the caller. -/
structure TransferDataResult where
  submittedInfo : CF_OPERATION_INFO
  submittedParams : TransferDataParams
  ret : Int
deriving DecidableEq, Repr

/-- `cfapi_transfer_data`: builds a TRANSFER_DATA operation carrying
    STATUS_SUCCESS, the data buffer, the absolute offset and the
    length, executes it, and returns the `CfExecute` HRESULT verbatim. -/
def cfapi_transfer_data (os : OsConnState) (conn_key transfer_key : Int)
    (data : Bytes) (offset length : Int) : TransferDataResult :=
  { submittedInfo :=
      { opType := CF_OPERATION_TYPE_TRANSFER_DATA
        connectionKey := conn_key
        transferKey := transfer_key }
    submittedParams :=
      { completionStatus := STATUS_SUCCESS
        buffer := some data
        offset := offset
        length := length }
    ret := CfExecute os
      { opType := CF_OPERATION_TYPE_TRANSFER_DATA
        connectionKey := conn_key
        transferKey := transfer_key }
      { completionStatus := STATUS_SUCCESS
        buffer := some data
        offset := offset
        length := length } }

/-- Everything observable about one `cfapi_transfer_error` call.  The C
    function returns `void`, so nothing flows back to the caller:
    `ret` is `none` unconditionally, while the `CfExecute` status is
    computed and discarded inside the call. -/
structure TransferErrorResult where
  submittedInfo : CF_OPERATION_INFO
  submittedParams : TransferDataParams
  discardedStatus : Int
  ret : Option Int
deriving DecidableEq, Repr

/-- `cfapi_transfer_error`: builds a TRANSFER_DATA operation carrying
    the given error code as completion status (the `long` to NTSTATUS
    cast is the identity on the 32-bit value), a null buffer, the given
    offset and length 0, executes it, and discards the `CfExecute`
    result (the C function's return type is `void`). -/
def cfapi_transfer_error (os : OsConnState) (conn_key transfer_key : Int)
    (offset : Int) (hr : Int) : TransferErrorResult :=
  { submittedInfo :=
      { opType := CF_OPERATION_TYPE_TRANSFER_DATA
        connectionKey := conn_key
        transferKey := transfer_key }
    submittedParams :=
      { completionStatus := hr
        buffer := none
        offset := offset
        length := 0 }
    discardedStatus := CfExecute os
      { opType := CF_OPERATION_TYPE_TRANSFER_DATA
        connectionKey := conn_key
        transferKey := transfer_key }
      { completionStatus := hr
        buffer := none
        offset := offset
        length := 0 }
    ret := none }

/- ---------- Placeholder metadata readback ---------- -/

/-- What a metadata read reports for a placeholder. -/
structure PlaceholderReadback where
  size : Int
  identity : Bytes
  creationTime : Nat
  lastWriteTime : Nat
  changeTime : Nat
  lastAccessTime : Nat
deriving DecidableEq, Repr

/-- Model of the platform metadata read after `CfCreatePlaceholders`
    (spec Boundary A): the OS persists the submitted record and a read
    reports the stored size, the `FileIdentityLength` bytes at
    `FileIdentity`, and the stored 100-ns timestamps. -/
def metadataRead (ph : CF_PLACEHOLDER_CREATE_INFO) : PlaceholderReadback :=
  { size := ph.fsMetadata.fileSize
    identity := ph.fileIdentity.take ph.fileIdentityLength
    creationTime := ph.fsMetadata.basicInfo.creationTime
    lastWriteTime := ph.fsMetadata.basicInfo.lastWriteTime
    changeTime := ph.fsMetadata.basicInfo.changeTime
    lastAccessTime := ph.fsMetadata.basicInfo.lastAccessTime }

/- ---------- Helper lemmas ---------- -/

/-- For a NUL-free byte list (the content of a well-formed C string),
    `strlen` is the list length. -/
lemma strlen_eq_length (s : Bytes) (h : 0 ∉ s) : strlen s = s.length := by
  induction s with
  | nil => rfl
  | cons b rest ih =>
      have hb : b ≠ 0 := fun hb => h (hb ▸ List.mem_cons_self b rest)
      have hrest : 0 ∉ rest := fun hr => h (List.mem_cons_of_mem b hr)
      have hbb : (b != 0) = true := by simpa using hb
      simp [strlen, List.takeWhile_cons, hbb] at ih ⊢
      exact ih hrest

/-- Casting `toULL` back to the integers is reduction modulo 2^64. -/
lemma toULL_cast (x : Int) : (toULL x : Int) = x % 2 ^ 64 := by
  unfold toULL
  exact Int.toNat_of_nonneg (Int.emod_nonneg x (by norm_num))

/-- The unsigned 64-bit computation inside `UnixToFileTime` is the
    mathematical formula reduced modulo 2^64. -/
lemma unixToFileTime_cast (u : Int) :
    (UnixToFileTime u : Int) = (u + 11644473600) * 10000000 % 2 ^ 64 := by
  unfold UnixToFileTime
  push_cast [toULL_cast]
  have h1 : (u % 2 ^ 64 + 11644473600) % 2 ^ 64 ≡ u + 11644473600 [ZMOD (2 ^ 64 : Int)] := by
    have ha : (u % 2 ^ 64 + 11644473600) % 2 ^ 64
        ≡ u % 2 ^ 64 + 11644473600 [ZMOD (2 ^ 64 : Int)] :=
      Int.emod_emod_of_dvd _ dvd_rfl
    have hb : u % 2 ^ 64 + 11644473600 ≡ u + 11644473600 [ZMOD (2 ^ 64 : Int)] :=
      Int.ModEq.add_right 11644473600 (Int.emod_emod_of_dvd u dvd_rfl)
    exact ha.trans hb
  exact h1.mul_right 10000000

/-- When the mathematical FILETIME value is representable in unsigned
    64 bits, `UnixToFileTime` computes it exactly. -/
lemma unixToFileTime_exact (u : Int) (h0 : 0 ≤ u + 11644473600)
    (h1 : (u + 11644473600) * 10000000 < 2 ^ 64) :
    (UnixToFileTime u : Int) = (u + 11644473600) * 10000000 := by
  rw [unixToFileTime_cast]
  exact Int.emod_emod_of_dvd _ dvd_rfl ▸
    Int.emod_eq_of_lt (mul_nonneg h0 (by norm_num)) h1

/-- Reading a representable `UnixToFileTime` back as whole seconds
    recovers the input timestamp. -/
lemma fileTime_roundtrip (u : Int) (h0 : 0 ≤ u + 11644473600)
    (h1 : (u + 11644473600) * 10000000 < 2 ^ 64) :
    fileTimeToUnixSeconds (UnixToFileTime u) = u := by
  have h2 : (UnixToFileTime u : Int) = (u + 11644473600) * 10000000 :=
    unixToFileTime_exact u h0 h1
  have h3 : UnixToFileTime u = (u + 11644473600).toNat * 10000000 := by
    have h4 : (((u + 11644473600).toNat * 10000000 : Nat) : Int)
        = (u + 11644473600) * 10000000 := by
      push_cast [Int.toNat_of_nonneg h0]
      ring
    exact_mod_cast h2.trans h4.symm
  unfold fileTimeToUnixSeconds
  rw [h3, Nat.mul_div_cancel _ (by norm_num)]
  omega

/-- Upserting a path twice collapses to a single upsert. -/
lemma upsertRoot_idem (st : SyncRootStore) (p : Bytes) (e d : StoredSyncRoot) :
    upsertRoot (upsertRoot st p d) p e = upsertRoot st p e := by
  induction st with
  | nil => simp [upsertRoot]
  | cons hd rest ih =>
      obtain ⟨q, f⟩ := hd
      by_cases hq : q = p
      · simp [upsertRoot, hq]
      · simp [upsertRoot, hq, ih]

/-- Looking up a path just upserted returns the upserted entry. -/
lemma lookupRoot_upsert (st : SyncRootStore) (p : Bytes) (e : StoredSyncRoot) :
    lookupRoot (upsertRoot st p e) p = some e := by
  induction st with
  | nil => simp [upsertRoot, lookupRoot]
  | cons hd rest ih =>
      obtain ⟨q, f⟩ := hd
      by_cases hq : q = p
      · simp [upsertRoot, lookupRoot, hq]
      · simp [upsertRoot, lookupRoot, hq, ih]

/- ---------- Claim theorems ---------- -/

/-- C1 (amended): for every NUL-free identity blob B, size S, and
    whole-second timestamp T in the FILETIME-representable range,
    CreatePlaceholder followed by a metadata read reports size S,
    identity byte-exact equal to B with the length-prefix derived from
    the blob content, and all four timestamps equal to T at whole-second
    precision. -/
theorem createPlaceholder_roundtrip (name B : Bytes) (S T d : Int)
    (hB : 0 ∉ B) (h0 : 0 ≤ T + 11644473600)
    (h1 : (T + 11644473600) * 10000000 < 2 ^ 64) :
    (metadataRead (createPlaceholderInfo name B S T d)).size = S ∧
    (metadataRead (createPlaceholderInfo name B S T d)).identity = B ∧
    (createPlaceholderInfo name B S T d).fileIdentityLength = B.length ∧
    fileTimeToUnixSeconds (metadataRead (createPlaceholderInfo name B S T d)).creationTime = T ∧
    fileTimeToUnixSeconds (metadataRead (createPlaceholderInfo name B S T d)).lastWriteTime = T ∧
    fileTimeToUnixSeconds (metadataRead (createPlaceholderInfo name B S T d)).changeTime = T ∧
    fileTimeToUnixSeconds (metadataRead (createPlaceholderInfo name B S T d)).lastAccessTime = T := by
  have hlen : strlen B = B.length := strlen_eq_length B hB
  have hident : (metadataRead (createPlaceholderInfo name B S T d)).identity = B := by
    show B.take (strlen B) = B
    rw [hlen, List.take_length]
  have hts : fileTimeToUnixSeconds (UnixToFileTime T) = T := fileTime_roundtrip T h0 h1
  exact ⟨rfl, hident, hlen, hts, hts, hts, hts⟩

/-- C1 counterexample: for the pre-1601 timestamp T = -11644473601 the
    unsigned 64-bit conversion wraps, so the metadata read does not
    report T back. -/
theorem createPlaceholder_roundtrip_counterexample :
    fileTimeToUnixSeconds
        (metadataRead (createPlaceholderInfo [97] [105, 100, 45, 49] 1024 (-11644473601) 0)).creationTime
      ≠ -11644473601 := by
  decide

/-- C1 witness: the round-trip at blob "id-1", size 1024,
    T = 1700000000. -/
theorem createPlaceholder_roundtrip_witness :
    (0 ∉ ([105, 100, 45, 49] : Bytes)) ∧
    (0 : Int) ≤ 1700000000 + 11644473600 ∧
    ((1700000000 : Int) + 11644473600) * 10000000 < 2 ^ 64 ∧
    (metadataRead (createPlaceholderInfo [97] [105, 100, 45, 49] 1024 1700000000 0)).identity
      = [105, 100, 45, 49] ∧
    fileTimeToUnixSeconds
        (metadataRead (createPlaceholderInfo [97] [105, 100, 45, 49] 1024 1700000000 0)).creationTime
      = 1700000000 :=
  ⟨by decide, by norm_num, by norm_num,
    (createPlaceholder_roundtrip [97] [105, 100, 45, 49] 1024 1700000000 0
      (by decide) (by norm_num) (by norm_num)).2.1,
    (createPlaceholder_roundtrip [97] [105, 100, 45, 49] 1024 1700000000 0
      (by decide) (by norm_num) (by norm_num)).2.2.2.1⟩

/-- C2 (amended): on a stale connection key, Complete
    (`cfapi_transfer_data`) is total and returns the platform's nonzero
    failing status verbatim to the caller; Fail (`cfapi_transfer_error`)
    is total (no crash) and still submits the operation, but its C
    return type is void, so the platform's stale-key failure is
    discarded inside the call and nothing is reported to the caller. -/
theorem stale_key_reporting (os : OsConnState) (conn tk : Int) (data : Bytes)
    (off len failOff e : Int) (hstale : conn ∉ os.liveConnections) :
    (cfapi_transfer_data os conn tk data off len).ret = E_STALE_KEY ∧
    (cfapi_transfer_data os conn tk data off len).ret ≠ 0 ∧
    (cfapi_transfer_error os conn tk failOff e).discardedStatus = E_STALE_KEY ∧
    (cfapi_transfer_error os conn tk failOff e).ret = none := by
  refine ⟨?_, ?_, ?_, rfl⟩
  · simp [cfapi_transfer_data, CfExecute, hstale]
  · simp [cfapi_transfer_data, CfExecute, hstale]
    decide
  · simp [cfapi_transfer_error, CfExecute, hstale]

/-- C2 counterexample: with no live connections, the platform rejects
    the operation `cfapi_transfer_error` submits for key 5, yet the
    caller receives nothing (the C function returns void), so the
    stale-key TransferError is not reported. -/
theorem transfer_error_not_reported :
    (cfapi_transfer_error ⟨[]⟩ 5 7 0 (-2147024891)).discardedStatus ≠ 0 ∧
    (cfapi_transfer_error ⟨[]⟩ 5 7 0 (-2147024891)).ret = none := by
  exact ⟨by decide, rfl⟩

/-- C2 witness: the stale-key behaviour at connection key 5 against an
    empty live-connection set. -/
theorem stale_key_reporting_witness :
    ((5 : Int) ∉ (OsConnState.mk []).liveConnections) ∧
    (cfapi_transfer_data ⟨[]⟩ 5 7 [1, 2] 0 2).ret ≠ 0 ∧
    (cfapi_transfer_error ⟨[]⟩ 5 7 0 (-1)).ret = none :=
  ⟨by decide,
    (stale_key_reporting ⟨[]⟩ 5 7 [1, 2] 0 2 0 (-1) (by decide)).2.1,
    (stale_key_reporting ⟨[]⟩ 5 7 [1, 2] 0 2 0 (-1) (by decide)).2.2.2⟩

/-- C3 (amended): the placeholder creation path stores the identical
    value `UnixToFileTime unix` in all four timestamp fields, and that
    value is `(unix_seconds + 11644473600) * 10_000_000` reduced modulo
    2^64 (the code computes in unsigned 64-bit arithmetic); whenever the
    mathematical product lies in `[0, 2^64)` it equals the formula
    exactly. -/
theorem unixToFileTime_formula (name B : Bytes) (S u d : Int) :
    (createPlaceholderInfo name B S u d).fsMetadata.basicInfo.creationTime = UnixToFileTime u ∧
    (createPlaceholderInfo name B S u d).fsMetadata.basicInfo.lastWriteTime = UnixToFileTime u ∧
    (createPlaceholderInfo name B S u d).fsMetadata.basicInfo.changeTime = UnixToFileTime u ∧
    (createPlaceholderInfo name B S u d).fsMetadata.basicInfo.lastAccessTime = UnixToFileTime u ∧
    (UnixToFileTime u : Int) = (u + 11644473600) * 10000000 % 2 ^ 64 ∧
    (0 ≤ u + 11644473600 → (u + 11644473600) * 10000000 < 2 ^ 64 →
      (UnixToFileTime u : Int) = (u + 11644473600) * 10000000) :=
  ⟨rfl, rfl, rfl, rfl, unixToFileTime_cast u, unixToFileTime_exact u⟩

/-- C3 counterexample: at unix_seconds = -11644473601 (before the 1601
    FILETIME epoch) the unsigned computation wraps and differs from the
    mathematical formula. -/
theorem unixToFileTime_formula_counterexample :
    (UnixToFileTime (-11644473601) : Int)
      ≠ ((-11644473601 : Int) + 11644473600) * 10000000 := by
  decide

/-- C3 witness: the exact formula at unix_seconds = 1700000000. -/
theorem unixToFileTime_formula_witness :
    (0 : Int) ≤ 1700000000 + 11644473600 ∧
    ((1700000000 : Int) + 11644473600) * 10000000 < 2 ^ 64 ∧
    (UnixToFileTime 1700000000 : Int) = ((1700000000 : Int) + 11644473600) * 10000000 :=
  ⟨by norm_num, by norm_num,
    (unixToFileTime_formula [] [] 0 1700000000 0).2.2.2.2.2 (by norm_num) (by norm_num)⟩

/-- C4 (amended): every synchronous operation returns 0 (success) or
    the underlying platform status verbatim — register, unregister,
    connect and transfer-data pass the platform HRESULT through
    unchanged, create returns either the CfCreatePlaceholders HRESULT
    or the per-placeholder result the platform wrote, and update and
    dehydrate return the open failure as HRESULT_FROM_WIN32 of the
    Win32 error — with one exception: `cfapi_init` treats the failing
    HRESULT RPC_E_CHANGED_MODE from CoInitializeEx as success and
    returns 0. -/
theorem status_verbatim :
    (∀ hr : Int, hr < 0 → hr ≠ RPC_E_CHANGED_MODE → cfapi_init hr = hr) ∧
    (∀ hr : Int, 0 ≤ hr → cfapi_init hr = 0) ∧
    cfapi_init RPC_E_CHANGED_MODE = 0 ∧
    (∀ (st : SyncRootStore) (p n v : Bytes), (cfapi_register_sync_root st p n v).2 =
      (CfRegisterSyncRoot st p (buildSyncRegistration n v) buildSyncPolicies
        CF_REGISTER_FLAG_UPDATE).2) ∧
    (∀ hr : Int, cfapi_unregister_sync_root_status hr = hr) ∧
    (∀ hr : Int, cfapi_connect_sync_root_status hr = hr) ∧
    (∀ osHr phResult : Int,
      (osHr < 0 → cfapi_create_placeholder_status osHr phResult = osHr) ∧
      (0 ≤ osHr → phResult < 0 → cfapi_create_placeholder_status osHr phResult = phResult) ∧
      (0 ≤ osHr → 0 ≤ phResult → cfapi_create_placeholder_status osHr phResult = osHr)) ∧
    (∀ err osHr : Int, cfapi_update_placeholder_status true err osHr = osHr ∧
      cfapi_update_placeholder_status false err osHr = HRESULT_FROM_WIN32 err) ∧
    (∀ err osHr : Int, cfapi_dehydrate_placeholder_status true err osHr = osHr ∧
      cfapi_dehydrate_placeholder_status false err osHr = HRESULT_FROM_WIN32 err) ∧
    (∀ (os : OsConnState) (conn tk : Int) (data : Bytes) (off len : Int),
      (cfapi_transfer_data os conn tk data off len).ret =
        CfExecute os (cfapi_transfer_data os conn tk data off len).submittedInfo
          (cfapi_transfer_data os conn tk data off len).submittedParams) := by
  refine ⟨?_, ?_, by decide, fun _ _ _ _ => rfl, fun _ => rfl, fun _ => rfl,
    ?_, fun _ _ => ⟨rfl, rfl⟩, fun _ _ => ⟨rfl, rfl⟩, fun _ _ _ _ _ _ => rfl⟩
  · intro hr h1 h2
    simp [cfapi_init, h1, h2]
  · intro hr h
    unfold cfapi_init
    split <;> omega
  · intro osHr phResult
    refine ⟨?_, ?_, ?_⟩ <;> intros <;> unfold cfapi_create_placeholder_status <;>
      split <;> omega

/-- C4 counterexample: CoInitializeEx's RPC_E_CHANGED_MODE is an
    error-producing platform result (its HRESULT is negative, i.e.
    FAILED), yet `cfapi_init` replaces it with 0. -/
theorem init_swallows_changed_mode :
    RPC_E_CHANGED_MODE < 0 ∧
    cfapi_init RPC_E_CHANGED_MODE = 0 ∧
    cfapi_init RPC_E_CHANGED_MODE ≠ RPC_E_CHANGED_MODE := by
  exact ⟨by decide, by decide, by decide⟩

/-- C4 witness: an ordinary failing HRESULT (-1) survives `cfapi_init`
    verbatim. -/
theorem status_verbatim_witness :
    ((-1 : Int) < 0) ∧ ((-1 : Int) ≠ RPC_E_CHANGED_MODE) ∧ cfapi_init (-1) = -1 :=
  ⟨by norm_num, by decide, status_verbatim.1 (-1) (by norm_num) (by decide)⟩

/-- C6: registering the same root twice with identical arguments leaves
    the same platform root state as registering it once, and both calls
    succeed — re-registration (via CF_REGISTER_FLAG_UPDATE) is an
    idempotent in-place update, not a failure and not a second
    registration. -/
theorem register_idempotent (st : SyncRootStore) (p n v : Bytes) :
    (cfapi_register_sync_root (cfapi_register_sync_root st p n v).1 p n v).1
      = (cfapi_register_sync_root st p n v).1 ∧
    (cfapi_register_sync_root st p n v).2 = 0 ∧
    (cfapi_register_sync_root (cfapi_register_sync_root st p n v).1 p n v).2 = 0 := by
  refine ⟨?_, rfl, rfl⟩
  simp only [cfapi_register_sync_root, CfRegisterSyncRoot, if_pos rfl]
  exact upsertRoot_idem st p _ _

/-- C7: every registration stores the fixed 128-bit provider identifier
    `s_providerId` (a compile-time constant) and the fixed policy set
    Hydration.Primary=FULL, Population.Primary=FULL, InSync=TRACK_ALL,
    HardLink=NONE, independent of the path, name and version
    arguments. -/
theorem register_fixed_identity_and_policy (st : SyncRootStore) (p n v : Bytes) :
    lookupRoot (cfapi_register_sync_root st p n v).1 p
      = some ⟨buildSyncRegistration n v, buildSyncPolicies⟩ ∧
    (buildSyncRegistration n v).providerId = s_providerId ∧
    buildSyncPolicies.hydrationPrimary = CF_HYDRATION_POLICY_FULL ∧
    buildSyncPolicies.populationPrimary = CF_POPULATION_POLICY_FULL ∧
    buildSyncPolicies.inSync = CF_INSYNC_POLICY_TRACK_ALL ∧
    buildSyncPolicies.hardLink = CF_HARDLINK_POLICY_NONE := by
  refine ⟨?_, rfl, rfl, rfl, rfl, rfl⟩
  simp only [cfapi_register_sync_root, CfRegisterSyncRoot, if_pos rfl]
  exact lookupRoot_upsert st p _

/-- C8: a directory placeholder is created with the directory attribute
    and creation flags MARK_IN_SYNC plus DISABLE_ON_DEMAND_POPULATION;
    a file placeholder is created with the normal attribute and
    MARK_IN_SYNC only. -/
theorem createPlaceholder_flags (name identity : Bytes) (size mtime d : Int) :
    (d ≠ 0 →
      (createPlaceholderInfo name identity size mtime d).fsMetadata.basicInfo.fileAttributes
        = FILE_ATTRIBUTE_DIRECTORY ∧
      (createPlaceholderInfo name identity size mtime d).flags
        = Nat.lor CF_PLACEHOLDER_CREATE_FLAG_MARK_IN_SYNC
            CF_PLACEHOLDER_CREATE_FLAG_DISABLE_ON_DEMAND_POPULATION) ∧
    (d = 0 →
      (createPlaceholderInfo name identity size mtime d).fsMetadata.basicInfo.fileAttributes
        = FILE_ATTRIBUTE_NORMAL ∧
      (createPlaceholderInfo name identity size mtime d).flags
        = CF_PLACEHOLDER_CREATE_FLAG_MARK_IN_SYNC) := by
  constructor <;> intro hd <;> simp [createPlaceholderInfo, hd]

/-- C8 witness: the directory case at is_directory = 1 and the file
    case at is_directory = 0. -/
theorem createPlaceholder_flags_witness :
    ((1 : Int) ≠ 0 ∧
      (createPlaceholderInfo [] [] 0 0 1).flags
        = Nat.lor CF_PLACEHOLDER_CREATE_FLAG_MARK_IN_SYNC
            CF_PLACEHOLDER_CREATE_FLAG_DISABLE_ON_DEMAND_POPULATION) ∧
    ((0 : Int) = 0 ∧
      (createPlaceholderInfo [] [] 0 0 0).flags = CF_PLACEHOLDER_CREATE_FLAG_MARK_IN_SYNC) :=
  ⟨⟨by decide, ((createPlaceholder_flags [] [] 0 0 1).1 (by decide)).2⟩,
    ⟨rfl, ((createPlaceholder_flags [] [] 0 0 0).2 rfl).2⟩⟩

/-- C9: the Fail path submits a completion record carrying the given
    connection and transfer keys, the given (nonzero) error code as
    completion status, a null buffer, the given absolute offset and
    length 0; the Complete path submits completion status 0, the given
    buffer, absolute offset and length. -/
theorem transfer_completion_record (os : OsConnState) (conn tk : Int)
    (data : Bytes) (off len failOff e : Int) (he : e ≠ 0) :
    (cfapi_transfer_error os conn tk failOff e).submittedInfo.connectionKey = conn ∧
    (cfapi_transfer_error os conn tk failOff e).submittedInfo.transferKey = tk ∧
    (cfapi_transfer_error os conn tk failOff e).submittedParams.completionStatus = e ∧
    (cfapi_transfer_error os conn tk failOff e).submittedParams.completionStatus ≠ 0 ∧
    (cfapi_transfer_error os conn tk failOff e).submittedParams.buffer = none ∧
    (cfapi_transfer_error os conn tk failOff e).submittedParams.offset = failOff ∧
    (cfapi_transfer_error os conn tk failOff e).submittedParams.length = 0 ∧
    (cfapi_transfer_data os conn tk data off len).submittedInfo.connectionKey = conn ∧
    (cfapi_transfer_data os conn tk data off len).submittedInfo.transferKey = tk ∧
    (cfapi_transfer_data os conn tk data off len).submittedParams.completionStatus = 0 ∧
    (cfapi_transfer_data os conn tk data off len).submittedParams.buffer = some data ∧
    (cfapi_transfer_data os conn tk data off len).submittedParams.offset = off ∧
    (cfapi_transfer_data os conn tk data off len).submittedParams.length = len :=
  ⟨rfl, rfl, rfl, he, rfl, rfl, rfl, rfl, rfl, rfl, rfl, rfl, rfl⟩

/-- C9 witness: the completion records at connection key 1, transfer
    key 2, buffer [1, 2], error code -1. -/
theorem transfer_completion_record_witness :
    ((-1 : Int) ≠ 0) ∧
    (cfapi_transfer_error ⟨[1]⟩ 1 2 0 (-1)).submittedParams.completionStatus = -1 ∧
    (cfapi_transfer_data ⟨[1]⟩ 1 2 [1, 2] 0 2).submittedParams.completionStatus = 0 :=
  ⟨by decide,
    (transfer_completion_record ⟨[1]⟩ 1 2 [1, 2] 0 2 0 (-1) (by decide)).2.2.1,
    (transfer_completion_record ⟨[1]⟩ 1 2 [1, 2] 0 2 0 (-1) (by decide)).2.2.2.2.2.2.2.2.2.1⟩

/-- C10: the metadata record pushed by UpdatePlaceholder sets only the
    file size, last-write time and change time (the identity blob is
    pushed alongside with its strlen-derived length); its creation-time,
    last-access-time and attribute fields stay zero, unlike creation,
    which sets all four timestamp fields from the input time. -/
theorem updatePlaceholder_frame (name identity : Bytes) (size mtime : Int) :
    (updateFsMetadata size mtime).basicInfo.creationTime = 0 ∧
    (updateFsMetadata size mtime).basicInfo.lastAccessTime = 0 ∧
    (updateFsMetadata size mtime).basicInfo.fileAttributes = 0 ∧
    (updateFsMetadata size mtime).basicInfo.lastWriteTime = UnixToFileTime mtime ∧
    (updateFsMetadata size mtime).basicInfo.changeTime = UnixToFileTime mtime ∧
    (updateFsMetadata size mtime).fileSize = size ∧
    cfapi_update_placeholder_submission true identity size mtime
      = some (updateFsMetadata size mtime, identity, strlen identity) ∧
    (createPlaceholderInfo name identity size mtime 0).fsMetadata.basicInfo.creationTime
      = UnixToFileTime mtime ∧
    (createPlaceholderInfo name identity size mtime 0).fsMetadata.basicInfo.lastAccessTime
      = UnixToFileTime mtime :=
  ⟨rfl, rfl, rfl, rfl, rfl, rfl, rfl, rfl, rfl⟩

end Cfapi
